import Mathlib

/-!
Shallow embedding of the `tasklog` pomodoro/task CLI (Rust sources
`src/models.rs`, `src/helper.rs`, `src/handlers.rs`, `src/repository.rs`)
together with theorems settling the frozen claims about it.

Modelling conventions:
* machine integers become `Nat`/`Int` (no overflow is relevant here);
* `std::time::Duration` values are whole seconds (`Nat`) — the program only
  ever manipulates them at one-second granularity;
* chrono `DateTime<Local>` becomes `LocalDateTime` (year/month/day plus
  seconds-of-day); RFC 3339 string comparison performed by SQLite on the
  stored timestamps is chronological for a fixed offset, so it is modelled
  as lexicographic comparison of the fields;
* `mpsc::Receiver::try_recv` outcomes are modelled by a function from the
  call index (how many `try_recv` calls happened on that channel so far)
  to `Recv`, covering `Ok`, `Empty` and `Disconnected`;
* fallible operations return `Except String`; a Rust `unwrap` panic is
  modelled by `Option` with `none` for the panicking branch;
* the SQLite store is a list of rows; `execute` on an `UPDATE` reports the
  number of rows matched by the `WHERE` clause, exactly as `rusqlite` does.
-/

namespace Tasklog

/-! ### Enumerations (src/models.rs) -/

/-- `TaskStatus` from src/models.rs: `All = 2, Done = 1, Open = 0`.
`open` is a Lean keyword, hence the constructor name `open_`. -/
inductive TaskStatus
  | all
  | done
  | open_
deriving DecidableEq, Repr

/-- `TaskStatus::to_usize` (src/models.rs). -/
def TaskStatus.to_usize : TaskStatus → Nat
  | .done => 1
  | .open_ => 0
  | .all => 2

/-- `TaskStatus::from_usize` (src/models.rs). -/
def TaskStatus.from_usize : Nat → TaskStatus
  | 0 => .open_
  | 1 => .done
  | _ => .all

/-- `PomoStatus` from src/models.rs: `Paused = 1, Finished = 2, Running = 0`. -/
inductive PomoStatus
  | paused
  | finished
  | running
deriving DecidableEq, Repr

/-- `PomoStatus::to_usize` (src/models.rs). -/
def PomoStatus.to_usize : PomoStatus → Nat
  | .paused => 1
  | .finished => 2
  | .running => 0

/-- `PomoType` from src/models.rs. -/
inductive PomoType
  | rest
  | work
deriving DecidableEq, Repr

/-- `PomoType::to_usize` (src/models.rs). -/
def PomoType.to_usize : PomoType → Nat
  | .rest => 0
  | .work => 1

/-- `Priority` from src/models.rs: `Low = 1, Medium = 2, High = 3, Urgent = 4`. -/
inductive Priority
  | low
  | medium
  | high
  | urgent
deriving DecidableEq, Repr

/-- `Priority::to_usize` (src/models.rs). -/
def Priority.to_usize : Priority → Nat
  | .low => 1
  | .medium => 2
  | .high => 3
  | .urgent => 4

/-! ### Countdown clock worker (`run_timer_thread`, src/helper.rs) -/

/-- The inner `for _ in 0..10` sleep loop of `run_timer_thread`: ten 100ms
slices, each preceded by a `quit_rx.try_recv()` check.  `stop k` tells
whether the `k`-th `try_recv` call on the quit channel returns `Ok`;
the slice checks occupy call indices `k, k+1, …, k+9`. -/
def sliceStopped (stop : Nat → Bool) (k : Nat) : Bool :=
  (List.range 10).any fun i => stop (k + i)

/-- `run_timer_thread` (src/helper.rs), returning the list of remaining
durations (whole seconds) sent on `time_update_tx`, in order.  `k` is the
index of the next `try_recv` call on the quit channel, `c` the current
remaining duration.  Each loop iteration: check quit (one call) and exit
reporting nothing further; send the current duration; break if it is zero;
run the ten sleep slices (ten more calls), returning mid-sleep on a quit
signal; finally `saturating_sub` one second.  Sends are modelled as always
delivered (the coordinator holds the receiver in every modelled scenario). -/
def run_timer_thread (stop : Nat → Bool) : Nat → Nat → List Nat
  | k, 0 => if stop k then [] else [0]
  | k, c + 1 =>
    if stop k then []
    else
      (c + 1) ::
        (if sliceStopped stop (k + 1) then []
         else run_timer_thread stop (k + 11) c)

/-- Modelled from the claim's words (refinement comparison only, NOT from the
source): per iteration the claim prescribes (a) stop check, (b) decrement by
one second floored at zero, (c) report the new value, (d) if the value is now
zero report once more and exit.  This is the report sequence that prescription
produces with no stop signal. -/
def timer_spec_reports : Nat → List Nat
  | 0 => [0, 0]
  | c + 1 => c :: (if c = 0 then [0] else timer_spec_reports c)

/-- The report sequence the source actually produces with no stop signal:
the initial duration down to zero, each value once. -/
def countdown_reports (d : Nat) : List Nat :=
  (List.range (d + 1)).reverse

/-! ### Session coordinator (`control_terminal`, src/handlers.rs) -/

/-- `PomodoroEvent` from src/models.rs. -/
inductive PomodoroEvent
  | resize (w h : Nat)
  | quit
deriving DecidableEq, Repr

/-- Outcome of one `try_recv` call on an mpsc channel. -/
inductive Recv (α : Type)
  | ok (a : α)
  | empty
  | disconnected
deriving DecidableEq, Repr

/-- `AppState` from src/models.rs (`current_time` in whole seconds). -/
structure AppState where
  title : String
  term_width : Nat
  term_height : Nat
  current_time : Nat
  quited : Bool
deriving DecidableEq, Repr

/-- `PomoTask` from src/models.rs (duration in whole seconds; start/end
times as abstract instants). -/
structure PomoTask where
  id : Nat
  status : PomoStatus
  pomo_type : PomoType
  title : String
  duration : Nat
  category : Option String
  start_time : Nat
  end_time : Nat
deriving DecidableEq, Repr

/-- The externally observable side effects `control_terminal` performs, in
program order.  `finalize st` is the `repository::update_pomodoro` call with
the decided terminal status. -/
inductive Action
  | enableRawMode
  | enterAltScreenHideCursor
  | sendStopTimer
  | sendStopEvent
  | joinTimer
  | joinEvent
  | leaveAltScreenShowCursor
  | disableRawMode
  | finalize (status : PomoStatus)
deriving DecidableEq, Repr

/-- Result of one iteration of the `loop` in `control_terminal`:
continue, break (carrying the state at exit), or an early `return Err`
propagated by `?` from a failed `draw_ui`. -/
inductive IterResult
  | cont (s : AppState) (dc : Nat)
  | brk (s : AppState) (dc : Nat)
  | fail (e : String)
deriving DecidableEq, Repr

/-- The `time_update_rx.try_recv()` match of the coordinator loop
(src/handlers.rs lines 181–202).  `dc` counts `draw_ui` calls so far and
indexes into `draw`.  On `Disconnected` the loop breaks with `quited`
unchanged (the `if app_state.current_time != Duration::ZERO` arm has an
empty body). -/
def time_step (s : AppState) (tm : Recv Nat) (draw : Nat → Except String Unit)
    (dc : Nat) : IterResult :=
  match tm with
  | .ok t =>
    let s1 := { s with current_time := t }
    match draw dc with
    | .error e => .fail e
    | .ok _ => if t = 0 then .brk s1 (dc + 1) else .cont s1 (dc + 1)
  | .empty => .cont s dc
  | .disconnected => .brk s dc

/-- One iteration of the coordinator loop (src/handlers.rs lines 154–207):
the event channel is matched first; only if that match did not break is the
time channel matched. -/
def loop_iter (s : AppState) (ev : Recv PomodoroEvent) (tm : Recv Nat)
    (draw : Nat → Except String Unit) (dc : Nat) : IterResult :=
  match ev with
  | .ok .quit => .brk { s with quited := true } dc
  | .ok (.resize w h) =>
    let s1 := { s with term_width := w, term_height := h }
    match draw dc with
    | .error e => .fail e
    | .ok _ => time_step s1 tm draw (dc + 1)
  | .empty => time_step s tm draw dc
  | .disconnected => .brk { s with quited := true } dc

/-- How the coordinator loop ends. `spinning` is a fuel artifact (both
channels kept reporting `Empty`, the loop is still running). -/
inductive LoopResult
  | ended (s : AppState) (dc : Nat)
  | drawFailed (e : String)
  | spinning
deriving DecidableEq, Repr

/-- The coordinator loop: `evCh i` / `tmCh i` are the outcomes of the single
`try_recv` performed on each channel during iteration `i`. -/
def control_loop (evCh : Nat → Recv PomodoroEvent) (tmCh : Nat → Recv Nat)
    (draw : Nat → Except String Unit) : Nat → Nat → Nat → AppState → LoopResult
  | 0, _, _, _ => .spinning
  | fuel + 1, i, dc, s =>
    match loop_iter s (evCh i) (tmCh i) draw dc with
    | .fail e => .drawFailed e
    | .brk s' dc' => .ended s' dc'
    | .cont s' dc' => control_loop evCh tmCh draw fuel (i + 1) dc' s'

/-- Result of `control_terminal`: the returned `Result` (with the decided
terminal status on success) and the action trace. -/
structure CTOutcome where
  result : Except String PomoStatus
  actions : List Action
deriving Repr

/-- The two terminal-setup effects performed before the loop starts. -/
def ctSetupActions : List Action :=
  [Action.enableRawMode, Action.enterAltScreenHideCursor]

/-- The full action trace of a run of `control_terminal` whose loop broke
normally and decided terminal status `st`: stop signals to both workers,
both joins, terminal restoration, and the finalize update — in that order
(src/handlers.rs lines 209–229). -/
def ctShutdownActions (st : PomoStatus) : List Action :=
  ctSetupActions ++
    [Action.sendStopTimer, Action.sendStopEvent, Action.joinTimer,
     Action.joinEvent, Action.leaveAltScreenShowCursor, Action.disableRawMode,
     Action.finalize st]

/-- `control_terminal` (src/handlers.rs lines 112–230).  `w0`/`h0` model
`terminal::size()`; `fuel` bounds the number of loop iterations (`none` =
the loop is still spinning after `fuel` iterations).  A `draw_ui` failure —
before the loop or inside it — is propagated by `?`: the function returns
the error having performed only the setup actions (no stop signals, no
joins, no terminal restoration, no finalize).  The `end_time` assignment
carries no decision and is elided; the decided status is both returned and
recorded in the `finalize` action. -/
def control_terminal (pomo : PomoTask) (w0 h0 : Nat)
    (evCh : Nat → Recv PomodoroEvent) (tmCh : Nat → Recv Nat)
    (draw : Nat → Except String Unit) (fuel : Nat) : Option CTOutcome :=
  match draw 0 with
  | .error e => some { result := .error e, actions := ctSetupActions }
  | .ok _ =>
    match control_loop evCh tmCh draw fuel 0 1
        { title := pomo.title, term_width := w0, term_height := h0,
          current_time := pomo.duration, quited := false } with
    | .spinning => none
    | .drawFailed e => some { result := .error e, actions := ctSetupActions }
    | .ended s _ =>
      some { result :=
               .ok (if s.quited then PomoStatus.paused else PomoStatus.finished),
             actions :=
               ctShutdownActions
                 (if s.quited then PomoStatus.paused else PomoStatus.finished) }

/-! ### Dates (chrono `DateTime<Local>`, as used by src/repository.rs) -/

/-- Gregorian leap year, as implemented by chrono. -/
def isLeapYear (y : Int) : Bool :=
  y % 4 = 0 && (y % 100 ≠ 0 || y % 400 = 0)

/-- Number of days in month `m` (1–12) of year `y`. -/
def daysInMonth (y : Int) (m : Nat) : Nat :=
  if m = 2 then (if isLeapYear y then 29 else 28)
  else if m = 4 ∨ m = 6 ∨ m = 9 ∨ m = 11 then 30
  else 31

/-- A chrono `DateTime<Local>`: calendar date plus seconds-of-day.  DST
shifts are ignored (irrelevant to every claim). -/
structure LocalDateTime where
  year : Int
  month : Nat
  day : Nat
  secOfDay : Nat
deriving DecidableEq, Repr

/-- chrono `Datelike::with_day`: replace the day-of-month, returning `none`
when the requested day is not a valid day of the current month. -/
def with_day (dt : LocalDateTime) (d : Nat) : Option LocalDateTime :=
  if 1 ≤ d ∧ d ≤ daysInMonth dt.year dt.month then some { dt with day := d }
  else none

/-- Successor day at the same time-of-day (rolls over month and year). -/
def next_day (dt : LocalDateTime) : LocalDateTime :=
  if dt.day < daysInMonth dt.year dt.month then { dt with day := dt.day + 1 }
  else if dt.month < 12 then { dt with month := dt.month + 1, day := 1 }
  else { year := dt.year + 1, month := 1, day := 1, secOfDay := dt.secOfDay }

/-- Modelled from the spec: the date window `now + N days`
(chrono `Local::now() + Duration::days(N)`, which src/handlers.rs uses for
its own display of the bound) — N applications of `next_day`. -/
def plus_days (dt : LocalDateTime) : Nat → LocalDateTime
  | 0 => dt
  | n + 1 => plus_days (next_day dt) n

/-- The due-date bound actually computed by `get_tasks`
(src/repository.rs lines 140–144): `now.with_day(now.day() + days)`,
whose `.unwrap()` panics on `none`. -/
def due_date_bound (now : LocalDateTime) (days : Nat) : Option LocalDateTime :=
  with_day now (now.day + days)

/-- Chronological order on timestamps, as realised by SQLite comparing the
stored RFC 3339 strings (lexicographic = chronological at a fixed offset). -/
def date_le (a b : LocalDateTime) : Bool :=
  decide (a.year < b.year ∨
    (a.year = b.year ∧ (a.month < b.month ∨
      (a.month = b.month ∧ (a.day < b.day ∨
        (a.day = b.day ∧ a.secOfDay ≤ b.secOfDay))))))

/-! ### Filter builder and task listing (src/models.rs, src/repository.rs) -/

/-- `LSType` from src/models.rs. -/
inductive LSType
  | task
  | pomo
deriving DecidableEq, Repr

/-- `LSArgs` from src/models.rs. -/
structure LSArgs where
  limit : Nat
  days : Nat
  category : Option String
  priority : Option Priority
  status : Option TaskStatus
  ls_type : LSType
deriving DecidableEq, Repr

/-- `LSArgs::validate` (src/models.rs lines 64–74). -/
def LSArgs.validate (a : LSArgs) : Except String Unit :=
  if a.limit > 100 then .error "Limit cannot be greater than 100"
  else if a.days > 365 then .error "Days cannot be greater than 365"
  else .ok ()

/-- A row of the `tasks` table.  `status`/`priority` are the stored
integers; `due_date` is the stored timestamp; `created_at` is an abstract
instant used only for ordering. -/
structure TaskRow where
  id : Nat
  status : Nat
  title : String
  due_date : LocalDateTime
  priority : Nat
  category : Option String
  created_at : Nat
deriving DecidableEq, Repr

/-- The `{{where_status}}` fragment of `GET_TASKS` after substitution
(src/repository.rs lines 170–181): the literal `AND status = 0`, a bound
`AND status = :status`, or no clause at all. -/
inductive StatusClause
  | fixedOpen
  | byParam (n : Nat)
  | noClause
deriving DecidableEq, Repr

/-- The status arm of `get_tasks`'s query construction: `None` substitutes
`AND status = 0`; `Some(Done | Open)` binds `:status` to
`status.to_usize()`; the remaining case (`All`) removes the clause. -/
def status_clause : Option TaskStatus → StatusClause
  | Option.none => .fixedOpen
  | some .done => .byParam TaskStatus.done.to_usize
  | some .open_ => .byParam TaskStatus.open_.to_usize
  | some .all => .noClause

/-- The fully substituted and bound `GET_TASKS` query
(src/repository.rs lines 56–60 and 138–181). -/
structure TasksQuery where
  due_date : LocalDateTime
  limit : Nat
  priority : Option Nat
  category : Option String
  status : StatusClause
deriving DecidableEq, Repr

/-- Query construction in `get_tasks`: the due-date bound via `with_day`
(`none` models the `.unwrap()` panic), the caller's limit unchanged, and
the three optional predicate clauses. -/
def build_tasks_query (args : LSArgs) (now : LocalDateTime) : Option TasksQuery :=
  (due_date_bound now args.days).map fun bound =>
    { due_date := bound, limit := args.limit,
      priority := args.priority.map Priority.to_usize,
      category := args.category,
      status := status_clause args.status }

/-- SQL semantics of the substituted status fragment. -/
def matches_status (c : StatusClause) (r : TaskRow) : Bool :=
  match c with
  | .fixedOpen => r.status == 0
  | .byParam n => r.status == n
  | .noClause => true

/-- SQL semantics of the full `WHERE` clause of `GET_TASKS`:
`due_date <= :due_date` plus the substituted optional clauses. -/
def matches_row (q : TasksQuery) (r : TaskRow) : Bool :=
  date_le r.due_date q.due_date &&
    (match q.category with
     | Option.none => true
     | some c => r.category == some c) &&
    (match q.priority with
     | Option.none => true
     | some p => r.priority == p) &&
    matches_status q.status r

/-- Insertion step for sorting by `created_at` descending
(`ORDER BY created_at DESC`). -/
def insert_desc (r : TaskRow) : List TaskRow → List TaskRow
  | [] => [r]
  | x :: xs => if r.created_at ≤ x.created_at then x :: insert_desc r xs
               else r :: x :: xs

/-- `ORDER BY created_at DESC` (tie order among equal timestamps is
unspecified in SQL; insertion sort fixes one). -/
def sort_created_desc (l : List TaskRow) : List TaskRow :=
  l.foldr insert_desc []

/-- SQL semantics of the substituted `GET_TASKS` query against a store:
filter, order by `created_at` descending, apply `LIMIT :limit`. -/
def run_tasks_query (q : TasksQuery) (store : List TaskRow) : List TaskRow :=
  (sort_created_desc (store.filter (matches_row q))).take q.limit

/-- `get_tasks` (src/repository.rs lines 138–201) against an in-memory
store; `none` models the `with_day(...).unwrap()` panic. -/
def get_tasks (args : LSArgs) (now : LocalDateTime) (store : List TaskRow) :
    Option (List TaskRow) :=
  (build_tasks_query args now).map fun q => run_tasks_query q store

/-- `handle_ls` (src/handlers.rs lines 20–51), task branch: validation runs
first and a failure aborts before any query is built or the store is read;
otherwise `get_tasks` runs (`error` on its panic).  The `LSType::Pomo`
branch shares the identical validation prefix. -/
def handle_ls (args : LSArgs) (now : LocalDateTime) (store : List TaskRow) :
    Except String (List TaskRow) :=
  match args.validate with
  | .error e => .error ("Err: " ++ e)
  | .ok _ =>
    match get_tasks args now store with
    | some rows => .ok rows
    | Option.none => .error "panicked: with_day returned None"

/-! ### Task/session store operations (src/repository.rs, src/handlers.rs) -/

/-- `get_task_by_id` (src/repository.rs lines 230–238): `query_row` over
`WHERE id = :id`; an absent row surfaces rusqlite's
`QueryReturnedNoRows` message. -/
def get_task_by_id (id : Nat) (store : List TaskRow) : Except String TaskRow :=
  match store.find? (fun r => r.id == id) with
  | some r => .ok r
  | Option.none => .error "Query returned no rows"

/-- `done_task` (src/repository.rs lines 240–255):
`UPDATE tasks SET status = 1 WHERE id = :id`, failing when the execute
reports zero affected rows. -/
def done_task (id : Nat) (store : List TaskRow) : Except String (List TaskRow) :=
  let store' := store.map fun r => if r.id = id then { r with status := 1 } else r
  if (store.filter (fun r => r.id == id)).length = 0 then
    .error "Could not mark task as done"
  else .ok store'

/-- `handle_done` (src/handlers.rs lines 84–99): read the task by id, fail
with the already-done message when its parsed status is `Done` (before any
update is issued), otherwise run `done_task`. -/
def handle_done (id : Nat) (store : List TaskRow) : Except String (List TaskRow) :=
  match get_task_by_id id store with
  | .error e => .error e
  | .ok task =>
    if TaskStatus.from_usize task.status = TaskStatus.done then
      .error "Task is already done"
    else
      match done_task id store with
      | .error e => .error ("Error: " ++ e)
      | .ok store' => .ok store'

/-- A row of the `pomodoro` table. -/
structure PomoRow where
  id : Nat
  pomo_type : Nat
  title : String
  start_time : Nat
  end_time : Option Nat
  duration : Int
  status : Nat
  category : Option String
deriving DecidableEq, Repr

/-- Number of rows matched by `UPDATE pomodoro ... WHERE id = :id` —
what `conn.execute` reports for `UPDATE_POMODORO`. -/
def update_pomodoro_affected (pomo : PomoTask) (store : List PomoRow) : Nat :=
  (store.filter (fun r => r.id == pomo.id)).length

/-- `update_pomodoro` (src/repository.rs lines 321–340): runs
`UPDATE_POMODORO` and matches only `Ok(_) => Ok(())` on the affected-row
count — unlike `done_task`, the count is never inspected, so a missing row
still yields `Ok`. -/
def update_pomodoro (pomo : PomoTask) (store : List PomoRow) :
    Except String (List PomoRow) :=
  .ok (store.map fun r =>
    if r.id = pomo.id then
      { r with status := pomo.status.to_usize, end_time := some pomo.end_time }
    else r)

/-! ### Concrete scenarios used by witnesses and counterexamples -/

/-- No stop signal ever arrives on the quit channel. -/
def noStop : Nat → Bool := fun _ => false

/-- A stop signal is pending from the very first `try_recv`. -/
def alwaysStop : Nat → Bool := fun _ => true

/-- The stop signal arrives after the first `try_recv` call. -/
def stopAfterFirst : Nat → Bool := fun k => decide (0 < k)

/-- Every `draw_ui` call succeeds. -/
def drawOk : Nat → Except String Unit := fun _ => .ok ()

/-- The pre-loop `draw_ui` succeeds; every redraw inside the loop fails. -/
def drawFailAfterFirst : Nat → Except String Unit :=
  fun i => if i = 0 then .ok () else .error "draw failed"

/-- Watcher channel: a resize event in the first iteration, then nothing. -/
def evResizeOnce : Nat → Recv PomodoroEvent :=
  fun i => if i = 0 then .ok (.resize 30 10) else .empty

/-- Watcher channel: a quit event is already pending. -/
def evQuit : Nat → Recv PomodoroEvent := fun _ => .ok .quit

/-- Watcher channel: never reports. -/
def evEmpty : Nat → Recv PomodoroEvent := fun _ => .empty

/-- Clock channel: a zero-remaining tick is already pending. -/
def tmZero : Nat → Recv Nat := fun _ => .ok 0

/-- Clock channel: found disconnected. -/
def tmDisc : Nat → Recv Nat := fun _ => .disconnected

/-- A freshly created 60-second work session. -/
def pomo60 : PomoTask :=
  { id := 1, status := .running, pomo_type := .work, title := "focus",
    duration := 60, category := Option.none, start_time := 0, end_time := 0 }

/-- A session about to be finalized as paused. -/
def pomoFin : PomoTask :=
  { id := 5, status := .paused, pomo_type := .work, title := "s",
    duration := 60, category := Option.none, start_time := 0, end_time := 99 }

/-- A second session about to be finalized as paused. -/
def pomoFin2 : PomoTask :=
  { id := 6, status := .paused, pomo_type := .rest, title := "r",
    duration := 30, category := Option.none, start_time := 0, end_time := 42 }

/-- An open task due 2026-01-10. -/
def rowA : TaskRow :=
  { id := 1, status := 0, title := "a", due_date := ⟨2026, 1, 10, 100⟩,
    priority := 2, category := Option.none, created_at := 5 }

/-- A done task due 2026-01-09. -/
def rowB : TaskRow :=
  { id := 2, status := 1, title := "b", due_date := ⟨2026, 1, 9, 0⟩,
    priority := 3, category := some "x", created_at := 9 }

/-- An open task due 2026-02-01 (outside a 1-day window from 2026-01-10). -/
def rowC : TaskRow :=
  { id := 3, status := 0, title := "c", due_date := ⟨2026, 2, 1, 0⟩,
    priority := 1, category := Option.none, created_at := 7 }

/-- A small tasks store with both open and done rows. -/
def storeC6 : List TaskRow := [rowA, rowB, rowC]

/-- A concrete "now": 2026-01-10 midnight. -/
def nowC6 : LocalDateTime := ⟨2026, 1, 10, 0⟩

/-- Listing request with no status predicate. -/
def argsDefault : LSArgs :=
  ⟨50, 1, Option.none, Option.none, Option.none, .task⟩

/-- Listing request with the explicit `All` sentinel. -/
def argsAll : LSArgs :=
  ⟨50, 1, Option.none, Option.none, some .all, .task⟩

/-- Listing request asking for `Done` tasks. -/
def argsDone : LSArgs :=
  ⟨50, 1, Option.none, Option.none, some .done, .task⟩

/-- Listing request with `limit = 101`. -/
def args101 : LSArgs :=
  ⟨101, 1, Option.none, Option.none, Option.none, .task⟩

/-- Listing request with `days = 366`. -/
def args366 : LSArgs :=
  ⟨50, 366, Option.none, Option.none, Option.none, .task⟩

/-- A listing request with `days = 7` — valid per `LSArgs::validate`. -/
def lsArgs7 : LSArgs :=
  ⟨50, 7, Option.none, Option.none, Option.none, .task⟩

/-- "now" = 2026-03-28 12:00: day-of-month 28 in a 31-day month. -/
def nowMarch28 : LocalDateTime := ⟨2026, 3, 28, 43200⟩

/-! ## Helper lemmas -/

/-- With no stop signal pending, the sleep slices never observe one. -/
theorem sliceStopped_noStop (stop : Nat → Bool) (hs : ∀ n, stop n = false)
    (k : Nat) : sliceStopped stop k = false := by
  simp [sliceStopped, hs]

/-- The clock worker's report sequence with no stop signal: the initial
duration first, then each second's new value down to zero, once each. -/
theorem run_timer_thread_no_stop (stop : Nat → Bool) (hs : ∀ n, stop n = false) :
    ∀ (d k : Nat), run_timer_thread stop k d = countdown_reports d := by
  intro d
  induction d with
  | zero =>
    intro k
    simp [run_timer_thread, hs, countdown_reports, List.range_succ]
  | succ n ih =>
    intro k
    simp [run_timer_thread, hs, sliceStopped_noStop stop hs, ih,
      countdown_reports, List.range_succ]

/-- `0` occurs exactly once in `List.range (d+1)`. -/
theorem count_zero_range (d : Nat) : (List.range (d + 1)).count 0 = 1 := by
  induction d with
  | zero => rfl
  | succ n ih =>
    rw [List.range_succ, List.count_append, ih]
    simp

/-- Members of `insert_desc r l` are `r` or members of `l`. -/
theorem mem_insert_desc (r a : TaskRow) :
    ∀ (l : List TaskRow), a ∈ insert_desc r l → a = r ∨ a ∈ l
  | [], h => by simpa [insert_desc] using h
  | x :: xs, h => by
    unfold insert_desc at h
    by_cases hc : r.created_at ≤ x.created_at
    · rw [if_pos hc] at h
      rcases List.mem_cons.mp h with h1 | h2
      · exact Or.inr (by simp [h1])
      · rcases mem_insert_desc r a xs h2 with h3 | h4
        · exact Or.inl h3
        · exact Or.inr (List.mem_cons_of_mem _ h4)
    · rw [if_neg hc] at h
      rcases List.mem_cons.mp h with h1 | h2
      · exact Or.inl h1
      · exact Or.inr h2

/-- Sorting by `created_at` descending introduces no new rows. -/
theorem mem_sort_created_desc (a : TaskRow) :
    ∀ (l : List TaskRow), a ∈ sort_created_desc l → a ∈ l
  | [], h => by simp [sort_created_desc] at h
  | x :: xs, h => by
    have hx : sort_created_desc (x :: xs) = insert_desc x (sort_created_desc xs) := rfl
    rw [hx] at h
    rcases mem_insert_desc x a _ h with h1 | h2
    · exact h1 ▸ List.mem_cons_self x xs
    · exact List.mem_cons_of_mem _ (mem_sort_created_desc a xs h2)

/-- Every row returned by the substituted `GET_TASKS` query satisfies its
status clause. -/
theorem status_of_mem_run (q : TasksQuery) (store : List TaskRow) (r : TaskRow)
    (h : r ∈ run_tasks_query q store) : matches_status q.status r = true := by
  unfold run_tasks_query at h
  have h1 := List.take_subset q.limit _ h
  have h2 := mem_sort_created_desc r _ h1
  have h3 := (List.mem_filter.mp h2).2
  unfold matches_row at h3
  simp only [Bool.and_eq_true] at h3
  exact h3.2

/-- `find?` for an id over the done-marking map: the found row is the old
found row with its status set to 1. -/
theorem find?_map_done (id : Nat) :
    ∀ (l : List TaskRow),
      (l.map fun r => if r.id = id then { r with status := 1 } else r).find?
          (fun t => t.id == id)
        = (l.find? (fun t => t.id == id)).map fun r => { r with status := 1 }
  | [] => rfl
  | x :: xs => by
    by_cases hx : x.id = id
    · simp [List.find?_cons, hx]
    · simp only [List.map_cons, List.find?_cons, if_neg hx]
      rw [show ((x.id == id) = false) by simpa using hx]
      simpa using find?_map_done id xs

/-- If no row matches the id, the done-marking map is the identity. -/
theorem map_update_id_of_unmatched (id : Nat) (f : TaskRow → TaskRow) :
    ∀ (l : List TaskRow), (l.filter (fun r => r.id == id)).length = 0 →
      (l.map fun r => if r.id = id then f r else r) = l
  | [], _ => rfl
  | x :: xs, h => by
    by_cases hx : x.id = id
    · exfalso
      rw [List.filter_cons] at h
      rw [show ((x.id == id) = true) by simpa using hx] at h
      simp at h
    · have hfx : ((x.id == id) = false) := by simpa using hx
      rw [List.filter_cons] at h
      rw [hfx] at h
      simp only [List.map_cons, if_neg hx]
      rw [map_update_id_of_unmatched id f xs (by simpa using h)]

/-- If no row matches the id, the pomodoro-finalize map is the identity. -/
theorem pomo_map_id_of_unmatched (pomo : PomoTask) :
    ∀ (l : List PomoRow), update_pomodoro_affected pomo l = 0 →
      (l.map fun r =>
        if r.id = pomo.id then
          { r with status := pomo.status.to_usize,
                   end_time := some pomo.end_time }
        else r) = l
  | [], _ => rfl
  | x :: xs, h => by
    unfold update_pomodoro_affected at h
    by_cases hx : x.id = pomo.id
    · exfalso
      rw [List.filter_cons] at h
      rw [show ((x.id == pomo.id) = true) by simpa using hx] at h
      simp at h
    · rw [List.filter_cons] at h
      rw [show ((x.id == pomo.id) = false) by simpa using hx] at h
      simp only [List.map_cons, if_neg hx]
      rw [pomo_map_id_of_unmatched pomo xs (by simpa [update_pomodoro_affected] using h)]

/-! ## Claim C2 — countdown clock worker (corrected) -/

/-- C2 counterexample: with initial duration 1 second and no stop signal the
clock reports `[1, 0]` — the undecremented initial value first and zero
exactly once — whereas the claimed decrement-then-report loop would produce
`[0, 0]` (step (c) reports the decremented value, step (d) reports zero once
more).  The claim is false at this input. -/
theorem C2_counterexample :
    run_timer_thread noStop 0 1 = [1, 0] ∧
    timer_spec_reports 1 = [0, 0] ∧
    run_timer_thread noStop 0 1 ≠ timer_spec_reports 1 :=
  ⟨rfl, rfl, by decide⟩

/-- C2 amended: each iteration of the clock worker (a) checks the stop
signal and exits immediately without further reports if present; (b) reports
the CURRENT remaining duration — so the first report is the initial value,
before any decrement; (c) exits after reporting zero (zero is reported
exactly once, not twice); (d) otherwise waits one second chopped into ten
100ms slices, each preceded by a stop-signal check that exits without
further reports, then decrements the remaining duration by one second,
floored at zero.  With no stop signal the full report sequence is
`d, d-1, …, 1, 0`. -/
theorem C2_amended_timer_reports :
    (∀ (stop : Nat → Bool), (∀ n, stop n = false) →
       ∀ k d, run_timer_thread stop k d = countdown_reports d) ∧
    (∀ (stop : Nat → Bool), (∀ n, stop n = false) →
       ∀ k d, (run_timer_thread stop k d).count 0 = 1) ∧
    (∀ (stop : Nat → Bool) (k d : Nat), stop k = true →
       run_timer_thread stop k d = []) ∧
    (∀ (stop : Nat → Bool) (k d : Nat), stop k = false →
       sliceStopped stop (k + 1) = true →
       run_timer_thread stop k (d + 1) = [d + 1]) := by
  refine ⟨fun stop hs k d => run_timer_thread_no_stop stop hs d k, ?_, ?_, ?_⟩
  · intro stop hs k d
    rw [run_timer_thread_no_stop stop hs d k]
    unfold countdown_reports
    rw [List.count_reverse]
    exact count_zero_range d
  · intro stop k d hstop
    cases d with
    | zero => simp [run_timer_thread, hstop]
    | succ n => simp [run_timer_thread, hstop]
  · intro stop k d hstop hslice
    simp [run_timer_thread, hstop, hslice]

/-- C2 amended witness: concrete instances of all four conjuncts. -/
theorem C2_amended_witness :
    run_timer_thread noStop 0 3 = [3, 2, 1, 0] ∧
    (run_timer_thread noStop 0 3).count 0 = 1 ∧
    run_timer_thread alwaysStop 0 5 = [] ∧
    run_timer_thread stopAfterFirst 0 5 = [5] :=
  ⟨(C2_amended_timer_reports.1 noStop (fun _ => rfl) 0 3).trans (by decide),
   C2_amended_timer_reports.2.1 noStop (fun _ => rfl) 0 3,
   C2_amended_timer_reports.2.2.1 alwaysStop 0 5 rfl,
   C2_amended_timer_reports.2.2.2 stopAfterFirst 0 4 rfl (by decide)⟩

/-! ## Claim C1 — rendering error during the loop (corrected) -/

/-- C1 counterexample: a resize event whose redraw fails makes
`control_terminal` return the draw error having performed only the two
setup actions — the terminal is NOT restored (no leave-alternate-screen, no
disable-raw-mode), the workers are NOT signalled, and NO finalize update
with status Paused is issued, contradicting the claim at this input. -/
theorem C1_counterexample :
    control_terminal pomo60 80 24 evResizeOnce tmZero drawFailAfterFirst 3 =
      some { result := .error "draw failed", actions := ctSetupActions } ∧
    Action.finalize PomoStatus.paused ∉ ctSetupActions ∧
    Action.leaveAltScreenShowCursor ∉ ctSetupActions ∧
    Action.disableRawMode ∉ ctSetupActions ∧
    Action.sendStopTimer ∉ ctSetupActions ∧
    Action.joinTimer ∉ ctSetupActions :=
  ⟨rfl, by decide, by decide, by decide, by decide, by decide⟩

/-- C1 amended: a rendering/terminal error while the coordinator loop is
active is propagated immediately by `?`: `control_terminal` returns the
error after only the setup actions — the workers are not signalled or
joined, the terminal is left in raw/alternate-screen mode, and the session
is never finalized, so a session ending in a rendering error is not
persisted with any terminal status. -/
theorem C1_amended_draw_error_aborts :
    ∀ (pomo : PomoTask) (w0 h0 : Nat) (evCh : Nat → Recv PomodoroEvent)
      (tmCh : Nat → Recv Nat) (draw : Nat → Except String Unit) (fuel : Nat)
      (o : CTOutcome) (e : String),
      control_terminal pomo w0 h0 evCh tmCh draw fuel = some o →
      o.result = .error e →
      o.actions = ctSetupActions := by
  intro pomo w0 h0 evCh tmCh draw fuel o e hrun herr
  unfold control_terminal at hrun
  cases hd : draw 0 with
  | error e0 =>
    rw [hd] at hrun
    simp only [Option.some.injEq] at hrun
    rw [← hrun]
  | ok u =>
    rw [hd] at hrun
    cases hl : control_loop evCh tmCh draw fuel 0 1
        { title := pomo.title, term_width := w0, term_height := h0,
          current_time := pomo.duration, quited := false } with
    | ended s dc =>
      rw [hl] at hrun
      simp only [Option.some.injEq] at hrun
      rw [← hrun] at herr
      simp at herr
    | drawFailed e0 =>
      rw [hl] at hrun
      simp only [Option.some.injEq] at hrun
      rw [← hrun]
    | spinning =>
      rw [hl] at hrun
      simp at hrun

/-- C1 amended witness: the concrete failing-redraw scenario. -/
theorem C1_amended_witness :
    (CTOutcome.mk (.error "draw failed") ctSetupActions).actions =
      ctSetupActions :=
  C1_amended_draw_error_aborts pomo60 80 24 evResizeOnce tmZero
    drawFailAfterFirst 3 (CTOutcome.mk (.error "draw failed") ctSetupActions)
    "draw failed" rfl rfl

/-! ## Claim C3 — quit priority and orderly shutdown (confirmed) -/

/-- C3: the watcher channel is matched before the clock channel in every
iteration, so when a Quit event is pending it wins over anything pending on
the clock channel — including a zero-remaining tick (`tmCh` is universally
quantified, so `tmCh 0 = .ok 0` is covered): the session ends with status
Paused, and the action trace shows both stop signals and both joins issued
before the terminal is restored and before the finalize update — all before
`control_terminal` returns. -/
theorem C3_quit_priority_and_shutdown :
    ∀ (pomo : PomoTask) (w0 h0 : Nat) (evCh : Nat → Recv PomodoroEvent)
      (tmCh : Nat → Recv Nat) (draw : Nat → Except String Unit) (fuel : Nat),
      evCh 0 = .ok .quit → draw 0 = .ok () →
      control_terminal pomo w0 h0 evCh tmCh draw (fuel + 1) =
        some { result := .ok PomoStatus.paused,
               actions := ctShutdownActions PomoStatus.paused } := by
  intro pomo w0 h0 evCh tmCh draw fuel hev hdraw
  unfold control_terminal
  rw [hdraw]
  unfold control_loop loop_iter
  rw [hev]
  simp

/-- C3 witness: a 60-second session with quit pending and a zero tick
simultaneously pending on the clock channel ends Paused with the full
shutdown trace. -/
theorem C3_witness :
    control_terminal pomo60 80 24 evQuit tmZero drawOk 3 =
      some { result := .ok PomoStatus.paused,
             actions := ctShutdownActions PomoStatus.paused } :=
  C3_quit_priority_and_shutdown pomo60 80 24 evQuit tmZero drawOk 2 rfl rfl

/-! ## Claim C4 — clock channel disconnected (corrected) -/

/-- C4 counterexample: the clock channel is found disconnected in the first
iteration while the last known remaining duration is 60 (≠ 0) — the claim
requires outcome Paused, but the code leaves `quited` untouched (the
anomaly arm has an empty body) and finalizes with status Finished. -/
theorem C4_counterexample :
    control_terminal pomo60 80 24 evEmpty tmDisc drawOk 3 =
      some { result := .ok PomoStatus.finished,
             actions := ctShutdownActions PomoStatus.finished } ∧
    pomo60.duration = 60 ∧ (60 : Nat) ≠ 0 :=
  ⟨rfl, rfl, by decide⟩

/-- C4 amended: when the coordinator finds the clock's channel disconnected
it breaks out of the loop with the quit flag unchanged, so (no quit having
been observed) the outcome is Finished regardless of the last known
remaining duration — the clock-died-early case is not distinguished from
natural completion. -/
theorem C4_amended_disconnect_finishes :
    ∀ (pomo : PomoTask) (w0 h0 : Nat) (evCh : Nat → Recv PomodoroEvent)
      (tmCh : Nat → Recv Nat) (draw : Nat → Except String Unit) (fuel : Nat),
      evCh 0 = .empty → tmCh 0 = .disconnected → draw 0 = .ok () →
      control_terminal pomo w0 h0 evCh tmCh draw (fuel + 1) =
        some { result := .ok PomoStatus.finished,
               actions := ctShutdownActions PomoStatus.finished } := by
  intro pomo w0 h0 evCh tmCh draw fuel hev htm hdraw
  unfold control_terminal
  rw [hdraw]
  unfold control_loop loop_iter
  rw [hev]
  unfold time_step
  rw [htm]
  simp

/-- C4 amended witness: a 60-second session whose clock channel is
disconnected immediately still finalizes as Finished. -/
theorem C4_witness :
    control_terminal pomoFin2 80 24 evEmpty tmDisc drawOk 4 =
      some { result := .ok PomoStatus.finished,
             actions := ctShutdownActions PomoStatus.finished } :=
  C4_amended_disconnect_finishes pomoFin2 80 24 evEmpty tmDisc drawOk 3
    rfl rfl rfl

/-! ## Claim C5 — due-date bound computation (code bug) -/

/-- C5: on 2026-03-28 a valid listing request with `days = 7` passes
validation, the intended bound `now + 7 days` is the well-defined
2026-04-04 (and it is what `handle_ls` itself prints as the bound), yet the
query's actual computation `now.with_day(now.day() + 7)` asks for day 35 of
March, gets `None`, and the `.unwrap()` panics — `get_tasks` never produces
a result.  The repository's own test calls `get_tasks` with `days: 7`, so
the code contradicts its test whenever it runs late in a month: the claim
states the intent, the code is a slip. -/
theorem C5_due_date_bound_panics :
    lsArgs7.validate = .ok () ∧
    plus_days nowMarch28 7 = ⟨2026, 4, 4, 43200⟩ ∧
    due_date_bound nowMarch28 7 = Option.none ∧
    get_tasks lsArgs7 nowMarch28 [] = Option.none :=
  ⟨rfl, by decide, by decide, by decide⟩

/-! ## Claim C10 — with_day overflow panic (confirmed) -/

/-- C10: whenever the current day-of-month plus the requested (validated)
lookahead exceeds the number of days in the current month, the due-date
bound computation `now.with_day(now.day() + days)` yields `None`, so the
subsequent `.unwrap()` panics instead of returning an error result: the
listing operation is not total on its validated inputs. -/
theorem C10_with_day_overflow_panics :
    ∀ (now : LocalDateTime) (days : Nat), days ≤ 365 →
      daysInMonth now.year now.month < now.day + days →
      due_date_bound now days = Option.none := by
  intro now days _ hover
  unfold due_date_bound with_day
  rw [if_neg]
  intro hcon
  omega

/-- C10 witness: day 28 of March 2026 with a 7-day lookahead. -/
theorem C10_witness :
    (7 : Nat) ≤ 365 ∧ daysInMonth 2026 3 < 28 + 7 ∧
    due_date_bound ⟨2026, 3, 28, 0⟩ 7 = Option.none :=
  ⟨by decide, by decide,
   C10_with_day_overflow_panics ⟨2026, 3, 28, 0⟩ 7 (by decide) (by decide)⟩

/-! ## Claim C6 — status filter policy (confirmed) -/

/-- C6: for every task-listing request, (i) with no status predicate every
returned row has the stored Open status (the query carries the literal
`AND status = 0`); (ii) with the explicit `All` sentinel the built query
carries no status restriction at all; (iii) with an explicit Open or Done
every returned row has exactly that stored status. -/
theorem C6_status_filter_policy :
    ∀ (args : LSArgs) (now : LocalDateTime) (store : List TaskRow),
      (args.status = Option.none →
        ∀ rows, get_tasks args now store = some rows →
          ∀ r ∈ rows, r.status = TaskStatus.open_.to_usize) ∧
      (args.status = some TaskStatus.all →
        ∀ q, build_tasks_query args now = some q →
          q.status = StatusClause.noClause) ∧
      (∀ s : TaskStatus, (s = TaskStatus.open_ ∨ s = TaskStatus.done) →
        args.status = some s →
        ∀ rows, get_tasks args now store = some rows →
          ∀ r ∈ rows, r.status = s.to_usize) := by
  intro args now store
  refine ⟨?_, ?_, ?_⟩
  · intro hst rows hrows r hr
    unfold get_tasks at hrows
    rcases Option.map_eq_some'.mp hrows with ⟨q, hq, hrun⟩
    unfold build_tasks_query at hq
    rcases Option.map_eq_some'.mp hq with ⟨bound, _, hqdef⟩
    have hms := status_of_mem_run q store r (hrun ▸ hr)
    rw [← hqdef] at hms
    simp only [hst, status_clause, matches_status] at hms
    simpa [TaskStatus.to_usize] using hms
  · intro hst q hq
    unfold build_tasks_query at hq
    rcases Option.map_eq_some'.mp hq with ⟨bound, _, hqdef⟩
    rw [← hqdef, hst]
    rfl
  · intro s hs hst rows hrows r hr
    unfold get_tasks at hrows
    rcases Option.map_eq_some'.mp hrows with ⟨q, hq, hrun⟩
    unfold build_tasks_query at hq
    rcases Option.map_eq_some'.mp hq with ⟨bound, _, hqdef⟩
    have hms := status_of_mem_run q store r (hrun ▸ hr)
    rw [← hqdef] at hms
    rcases hs with h | h
    · subst h
      simp only [hst, status_clause, matches_status] at hms
      simpa using hms
    · subst h
      simp only [hst, status_clause, matches_status] at hms
      simpa using hms

/-- C6 witness: on a concrete mixed store, omitting status returns only the
open row, the `All` sentinel builds a query with no status clause, and
asking for Done returns only the done row. -/
theorem C6_witness :
    (∀ r ∈ [rowA], r.status = TaskStatus.open_.to_usize) ∧
    ({ due_date := ⟨2026, 1, 11, 0⟩, limit := 50, priority := Option.none,
       category := Option.none, status := StatusClause.noClause } :
        TasksQuery).status = StatusClause.noClause ∧
    (∀ r ∈ [rowB], r.status = TaskStatus.done.to_usize) :=
  ⟨(C6_status_filter_policy argsDefault nowC6 storeC6).1 rfl [rowA] (by decide),
   (C6_status_filter_policy argsAll nowC6 storeC6).2.1 rfl _ (by decide),
   (C6_status_filter_policy argsDone nowC6 storeC6).2.2 TaskStatus.done
     (Or.inr rfl) rfl [rowB] (by decide)⟩

/-! ## Claim C7 — session finalize on a missing row (corrected) -/

/-- C7 counterexample: finalizing a session against a store that does not
contain its row reports success (`Ok`) although the update matched zero
rows — the claim requires a persistence error in exactly this case. -/
theorem C7_counterexample :
    update_pomodoro pomoFin [] = .ok [] ∧
    update_pomodoro_affected pomoFin [] = 0 :=
  ⟨rfl, rfl⟩

/-- C7 amended: `update_pomodoro` succeeds whenever the SQL statement
executes — the affected-row count is matched only as `Ok(_)` and never
inspected (unlike `done_task`), so a missing target row or a zero-row
update is not detected: the update silently changes nothing and still
reports success. -/
theorem C7_amended_finalize_never_fails :
    ∀ (pomo : PomoTask) (store : List PomoRow),
      (∃ store', update_pomodoro pomo store = .ok store') ∧
      (update_pomodoro_affected pomo store = 0 →
        update_pomodoro pomo store = .ok store) := by
  intro pomo store
  constructor
  · exact ⟨_, rfl⟩
  · intro h0
    unfold update_pomodoro
    rw [pomo_map_id_of_unmatched pomo store h0]

/-- C7 amended witness: a concrete missing-row finalize succeeds and leaves
the store unchanged. -/
theorem C7_witness :
    update_pomodoro pomoFin2 [] = .ok [] :=
  (C7_amended_finalize_never_fails pomoFin2 []).2 rfl

/-! ## Claim C8 — listing validation (confirmed) -/

/-- C8: a listing request with `limit > 100` or `days > 365` is rejected by
`validate` with the corresponding validation error before any query is
built or the store is read (`handle_ls`'s result is the error and is
independent of the store's contents — values are not clamped); requests
with `limit ≤ 100` and `days ≤ 365` pass validation, and the query built
for them carries the caller's limit unchanged. -/
theorem C8_validation_rejects_before_query :
    ∀ (args : LSArgs) (now : LocalDateTime) (s1 s2 : List TaskRow),
      (100 < args.limit →
        handle_ls args now s1 = .error "Err: Limit cannot be greater than 100" ∧
        handle_ls args now s1 = handle_ls args now s2) ∧
      (args.limit ≤ 100 → 365 < args.days →
        handle_ls args now s1 = .error "Err: Days cannot be greater than 365" ∧
        handle_ls args now s1 = handle_ls args now s2) ∧
      (args.limit ≤ 100 → args.days ≤ 365 →
        args.validate = .ok () ∧
        ∀ q, build_tasks_query args now = some q → q.limit = args.limit) := by
  intro args now s1 s2
  refine ⟨?_, ?_, ?_⟩
  · intro hlim
    have hv : args.validate = .error "Limit cannot be greater than 100" := by
      unfold LSArgs.validate
      rw [if_pos hlim]
    constructor
    · unfold handle_ls
      rw [hv]
      rfl
    · unfold handle_ls
      rw [hv]
  · intro hlim hdays
    have hv : args.validate = .error "Days cannot be greater than 365" := by
      unfold LSArgs.validate
      rw [if_neg (by omega), if_pos hdays]
    constructor
    · unfold handle_ls
      rw [hv]
      rfl
    · unfold handle_ls
      rw [hv]
  · intro hlim hdays
    constructor
    · unfold LSArgs.validate
      rw [if_neg (by omega), if_neg (by omega)]
    · intro q hq
      unfold build_tasks_query at hq
      rcases Option.map_eq_some'.mp hq with ⟨bound, _, hqdef⟩
      rw [← hqdef]

/-- C8 witness: `limit = 101` and `days = 366` are rejected with the exact
validation errors independently of the store, and the default request
passes validation. -/
theorem C8_witness :
    handle_ls args101 nowC6 storeC6 =
      .error "Err: Limit cannot be greater than 100" ∧
    handle_ls args366 nowC6 storeC6 =
      .error "Err: Days cannot be greater than 365" ∧
    argsDefault.validate = .ok () :=
  ⟨((C8_validation_rejects_before_query args101 nowC6 storeC6 []).1
      (by decide)).1,
   ((C8_validation_rejects_before_query args366 nowC6 storeC6 []).2.1
      (by decide) (by decide)).1,
   ((C8_validation_rejects_before_query argsDefault nowC6 storeC6 []).2.2
      (by decide) (by decide)).1⟩

/-! ## Claim C9 — mark-done idempotency guard (confirmed) -/

/-- C9: when the task found for the id already has stored status Done,
`handle_done` fails with the already-done error even though the underlying
update would have matched a row (so the failure is decided by the prior
read, not inferred from a zero-row update); when the stored status is Open,
the first call succeeds and stores status Done for that id, and a second
call on the updated store fails with the already-done error — the stored
status is Done after either call. -/
theorem C9_done_idempotence :
    ∀ (id : Nat) (store : List TaskRow) (r : TaskRow),
      store.find? (fun t => t.id == id) = some r →
      ((TaskStatus.from_usize r.status = TaskStatus.done →
         handle_done id store = .error "Task is already done" ∧
         ∃ s', done_task id store = .ok s') ∧
       (TaskStatus.from_usize r.status = TaskStatus.open_ →
         ∃ store', handle_done id store = .ok store' ∧
           store'.find? (fun t => t.id == id) = some { r with status := 1 } ∧
           TaskStatus.from_usize 1 = TaskStatus.done ∧
           handle_done id store' = .error "Task is already done")) := by
  intro id store r hfind
  have hget : get_task_by_id id store = .ok r := by
    unfold get_task_by_id
    rw [hfind]
  have hpr := List.find?_some hfind
  have hmem : r ∈ store.filter (fun t => t.id == id) :=
    List.mem_filter.mpr ⟨List.mem_of_find?_eq_some hfind, hpr⟩
  have hlen : ¬((store.filter (fun t => t.id == id)).length = 0) := by
    intro hcon
    rw [List.length_eq_zero.mp hcon] at hmem
    simp at hmem
  have hdone : done_task id store =
      .ok (store.map fun t => if t.id = id then { t with status := 1 } else t) := by
    unfold done_task
    rw [if_neg hlen]
  constructor
  · intro hst
    constructor
    · unfold handle_done
      simp only [hget]
      rw [if_pos hst]
    · exact ⟨_, hdone⟩
  · intro hst
    refine ⟨store.map fun t => if t.id = id then { t with status := 1 } else t,
      ?_, ?_, rfl, ?_⟩
    · unfold handle_done
      simp only [hget]
      rw [if_neg (by rw [hst]; intro hcon; cases hcon)]
      simp only [hdone]
    · rw [find?_map_done id store, hfind]
      rfl
    · unfold handle_done get_task_by_id
      rw [find?_map_done id store, hfind]
      rfl

/-- C9 witness: marking task 1 done on a one-open-task store succeeds once,
stores status Done, and fails the second time with the already-done error. -/
theorem C9_witness :
    ∃ store', handle_done 1 [rowA] = .ok store' ∧
      store'.find? (fun t => t.id == 1) = some { rowA with status := 1 } ∧
      TaskStatus.from_usize 1 = TaskStatus.done ∧
      handle_done 1 store' = .error "Task is already done" :=
  (C9_done_idempotence 1 [rowA] rowA rfl).2 rfl

end Tasklog
